import Mathlib

set_option linter.unusedVariables false

/-!
Verification of the A64 instruction-decoder data model and decoding rules of
src/libs/a2ir/src/aarch64_reader.rs.  The source file contains the data model
(register roles, opcode enumeration, condition codes, flags layout, the
instruction record and its empty constructor); the decode engine itself is not
part of the source tree, so the decoding rules are modelled from the
specification where needed (each such definition is marked in its doc comment).
All machine integers are modelled as `Nat` with explicit masking; bit-field
extraction is expressed with division and remainder by powers of two.
-/

namespace A64

/-- Extract the bit field w[hi:lo] (inclusive) of a machine word. -/
def bits (w lo hi : Nat) : Nat := w / 2 ^ lo % 2 ^ (hi + 1 - lo)

/-- Extract the single bit w[i] of a machine word. -/
def bit (w i : Nat) : Nat := w / 2 ^ i % 2

/-- All-ones mask of the given bit width. -/
def mask (width : Nat) : Nat := 2 ^ width - 1

/-- Interpret a `width`-bit value as a signed (two's complement) integer. -/
def sext (v width : Nat) : Int := if v < 2 ^ (width - 1) then (v : Int) else (v : Int) - 2 ^ width

/-- Rotate the `esize`-bit value `v` right by `r` bit positions. -/
def rotr (v r esize : Nat) : Nat :=
  v / 2 ^ (r % esize) + v % 2 ^ (r % esize) * 2 ^ (esize - r % esize)

/-- Concatenate `count` copies of the `esize`-bit chunk `v`. -/
def replicateBits (v esize : Nat) : Nat → Nat
  | 0 => 0
  | count + 1 => v + replicateBits v esize count * 2 ^ esize

/-- Index of the highest set bit of a value below 2^7, or `none` for zero
(the argument of interest, N:NOT(imms), is a 7-bit quantity). -/
def highestSetBit7 (v : Nat) : Option Nat :=
  if 64 ≤ v then some 6
  else if 32 ≤ v then some 5
  else if 16 ≤ v then some 4
  else if 8 ≤ v then some 3
  else if 4 ≤ v then some 2
  else if 2 ≤ v then some 1
  else if 1 ≤ v then some 0
  else none

/-- Modelled from the spec: the architecture's DecodeBitMasks algorithm for
logical-immediate operands (the decoder that evaluates it is missing from the
source tree).  Returns the decoded `width`-bit bitmask immediate, or `none`
for a reserved (invalid) N:immr:imms combination. -/
def decodeBitMasks (n imms immr width : Nat) : Option Nat :=
  match highestSetBit7 (n * 64 + (imms ^^^ 63)) with
  | none => none
  | some 0 => none
  | some len =>
    if imms &&& (2 ^ len - 1) = 2 ^ len - 1 then none
    else
      some (replicateBits
        (rotr (2 ^ ((imms &&& (2 ^ len - 1)) + 1) - 1) (immr &&& (2 ^ len - 1)) (2 ^ len))
        (2 ^ len) (width / 2 ^ len))

/-- Register role enumeration `Reg` of the source (lines 19-23).  The Rust
enum has exactly these two variants, with discriminants 31 and 100. -/
inductive Reg : Type where
  | ZERO_REG
  | STACK_POINTER
  deriving DecidableEq

/-- Discriminant values of the `Reg` enum as written in the source. -/
def Reg.val : Reg → Nat
  | .ZERO_REG => 31
  | .STACK_POINTER => 100

/-- Opcode enumeration `Op` of src/libs/a2ir/src/aarch64_reader.rs (lines 41-800):
the closed set of canonical A64 mnemonics produced by the decoder, including the
three sentinels A64_UNKNOWN, A64_ERROR and A64_UDF. -/
inductive Op : Type where
  | A64_UNKNOWN
  | A64_ERROR
  | A64_UDF
  | A64_ADR
  | A64_ADRP
  | A64_ADD_IMM
  | A64_CMN_IMM
  | A64_MOV_SP
  | A64_SUB_IMM
  | A64_CMP_IMM
  | A64_AND_IMM
  | A64_ORR_IMM
  | A64_EOR_IMM
  | A64_TST_IMM
  | A64_MOVK
  | A64_MOV_IMM
  | A64_SBFM
  | A64_ASR_IMM
  | A64_SBFIZ
  | A64_SBFX
  | A64_BFM
  | A64_BFC
  | A64_BFI
  | A64_BFXIL
  | A64_UBFM
  | A64_LSL_IMM
  | A64_LSR_IMM
  | A64_UBFIZ
  | A64_UBFX
  | A64_EXTEND
  | A64_EXTR
  | A64_ROR_IMM
  | A64_BCOND
  | A64_SVC
  | A64_HVC
  | A64_SMC
  | A64_BRK
  | A64_HLT
  | A64_DCPS1
  | A64_DCPS2
  | A64_DCPS3
  | A64_HINT
  | A64_CLREX
  | A64_DMB
  | A64_ISB
  | A64_SB
  | A64_DSB
  | A64_SSBB
  | A64_PSSBB
  | A64_MSR_IMM
  | A64_CFINV
  | A64_XAFlag
  | A64_AXFlag
  | A64_SYS
  | A64_SYSL
  | A64_MSR_REG
  | A64_MRS
  | A64_BR
  | A64_BLR
  | A64_RET
  | A64_B
  | A64_BL
  | A64_CBZ
  | A64_CBNZ
  | A64_TBZ
  | A64_TBNZ
  | A64_UDIV
  | A64_SDIV
  | A64_LSLV
  | A64_LSRV
  | A64_ASRV
  | A64_RORV
  | A64_CRC32B
  | A64_CRC32H
  | A64_CRC32W
  | A64_CRC32X
  | A64_CRC32CB
  | A64_CRC32CH
  | A64_CRC32CW
  | A64_CRC32CX
  | A64_SUBP
  | A64_RBIT
  | A64_REV16
  | A64_REV
  | A64_REV32
  | A64_CLZ
  | A64_CLS
  | A64_AND_SHIFTED
  | A64_TST_SHIFTED
  | A64_BIC
  | A64_ORR_SHIFTED
  | A64_MOV_REG
  | A64_ORN
  | A64_MVN
  | A64_EOR_SHIFTED
  | A64_EON
  | A64_ADD_SHIFTED
  | A64_CMN_SHIFTED
  | A64_SUB_SHIFTED
  | A64_NEG
  | A64_CMP_SHIFTED
  | A64_ADD_EXT
  | A64_CMN_EXT
  | A64_SUB_EXT
  | A64_CMP_EXT
  | A64_ADC
  | A64_SBC
  | A64_NGC
  | A64_RMIF
  | A64_SETF8
  | A64_SETF16
  | A64_CCMN_REG
  | A64_CCMP_REG
  | A64_CCMN_IMM
  | A64_CCMP_IMM
  | A64_CSEL
  | A64_CSINC
  | A64_CINC
  | A64_CSET
  | A64_CSINV
  | A64_CINV
  | A64_CSETM
  | A64_CSNEG
  | A64_CNEG
  | A64_MADD
  | A64_MUL
  | A64_MSUB
  | A64_MNEG
  | A64_SMADDL
  | A64_SMULL
  | A64_SMSUBL
  | A64_SMNEGL
  | A64_SMULH
  | A64_UMADDL
  | A64_UMULL
  | A64_UMSUBL
  | A64_UMNEGL
  | A64_UMULH
  | A64_LD1_MULT
  | A64_ST1_MULT
  | A64_LD2_MULT
  | A64_ST2_MULT
  | A64_LD3_MULT
  | A64_ST3_MULT
  | A64_LD4_MULT
  | A64_ST4_MULT
  | A64_LD1_SINGLE
  | A64_ST1_SINGLE
  | A64_LD2_SINGLE
  | A64_ST2_SINGLE
  | A64_LD3_SINGLE
  | A64_ST3_SINGLE
  | A64_LD4_SINGLE
  | A64_ST4_SINGLE
  | A64_LD1R
  | A64_LD2R
  | A64_LD3R
  | A64_LD4R
  | A64_LDXR
  | A64_STXR
  | A64_LDXP
  | A64_STXP
  | A64_LDAPR
  | A64_LDNP
  | A64_STNP
  | A64_LDNP_FP
  | A64_STNP_FP
  | A64_LDP
  | A64_STP
  | A64_LDP_FP
  | A64_STP_FP
  | A64_LDR
  | A64_STR
  | A64_LDR_FP
  | A64_STR_FP
  | A64_PRFM
  | A64_LDADD
  | A64_LDCLR
  | A64_LDEOR
  | A64_LDSET
  | A64_LDSMAX
  | A64_LDSMIN
  | A64_LDUMAX
  | A64_LDUMIN
  | A64_SWP
  | A64_CAS
  | A64_CASP
  | A64_FCVT_GPR
  | A64_FCVT_VEC
  | A64_CVTF
  | A64_CVTF_VEC
  | A64_FJCVTZS
  | A64_FRINT
  | A64_FRINT_VEC
  | A64_FRINTX
  | A64_FRINTX_VEC
  | A64_FCVT_H
  | A64_FCVT_S
  | A64_FCVT_D
  | A64_FCVTL
  | A64_FCVTN
  | A64_FCVTXN
  | A64_FABS
  | A64_FNEG
  | A64_FSQRT
  | A64_FMUL
  | A64_FMULX
  | A64_FDIV
  | A64_FADD
  | A64_FSUB
  | A64_FMAX
  | A64_FMAXNM
  | A64_FMIN
  | A64_FMINNM
  | A64_FRECPE
  | A64_FRECPS
  | A64_FRECPX
  | A64_FRSQRTE
  | A64_FRSQRTS
  | A64_FNMUL
  | A64_FMADD
  | A64_FMSUB
  | A64_FNMADD
  | A64_FNMSUB
  | A64_FCMP_REG
  | A64_FCMP_ZERO
  | A64_FCMPE_REG
  | A64_FCMPE_ZERO
  | A64_FCCMP
  | A64_FCCMPE
  | A64_FCSEL
  | A64_FMOV_VEC2GPR
  | A64_FMOV_GPR2VEC
  | A64_FMOV_TOP2GPR
  | A64_FMOV_GPR2TOP
  | A64_FMOV_REG
  | A64_FMOV_IMM
  | A64_FMOV_VEC
  | A64_FCMEQ_REG
  | A64_FCMEQ_ZERO
  | A64_FCMGE_REG
  | A64_FCMGE_ZERO
  | A64_FCMGT_REG
  | A64_FCMGT_ZERO
  | A64_FCMLE_ZERO
  | A64_FCMLT_ZERO
  | A64_FACGE
  | A64_FACGT
  | A64_FABS_VEC
  | A64_FABD_VEC
  | A64_FNEG_VEC
  | A64_FSQRT_VEC
  | A64_FMUL_ELEM
  | A64_FMUL_VEC
  | A64_FMULX_ELEM
  | A64_FMULX_VEC
  | A64_FDIV_VEC
  | A64_FADD_VEC
  | A64_FCADD
  | A64_FSUB_VEC
  | A64_FMAX_VEC
  | A64_FMAXNM_VEC
  | A64_FMIN_VEC
  | A64_FMINNM_VEC
  | A64_FRECPE_VEC
  | A64_FRECPS_VEC
  | A64_FRSQRTE_VEC
  | A64_FRSQRTS_VEC
  | A64_FMLA_ELEM
  | A64_FMLA_VEC
  | A64_FMLAL_ELEM
  | A64_FMLAL_VEC
  | A64_FMLAL2_ELEM
  | A64_FMLAL2_VEC
  | A64_FCMLA_ELEM
  | A64_FCMLA_VEC
  | A64_FMLS_ELEM
  | A64_FMLS_VEC
  | A64_FMLSL_ELEM
  | A64_FMLSL_VEC
  | A64_FMLSL2_ELEM
  | A64_FMLSL2_VEC
  | A64_FADDP
  | A64_FADDP_VEC
  | A64_FMAXP
  | A64_FMAXP_VEC
  | A64_FMAXV
  | A64_FMAXNMP
  | A64_FMAXNMP_VEC
  | A64_FMAXNMV
  | A64_FMINP
  | A64_FMINP_VEC
  | A64_FMINV
  | A64_FMINNMP
  | A64_FMINNMP_VEC
  | A64_FMINNMV
  | A64_AND_VEC
  | A64_BCAX
  | A64_BIC_VEC_IMM
  | A64_BIC_VEC_REG
  | A64_BIF
  | A64_BIT
  | A64_BSL
  | A64_CLS_VEC
  | A64_CLZ_VEC
  | A64_CNT
  | A64_EOR_VEC
  | A64_EOR3
  | A64_NOT_VEC
  | A64_ORN_VEC
  | A64_ORR_VEC_IMM
  | A64_ORR_VEC_REG
  | A64_MOV_VEC
  | A64_RAX1
  | A64_RBIT_VEC
  | A64_REV16_VEC
  | A64_REV32_VEC
  | A64_REV64_VEC
  | A64_SHL_IMM
  | A64_SHL_REG
  | A64_SHLL
  | A64_SHR
  | A64_SHRN
  | A64_SRA
  | A64_SLI
  | A64_SRI
  | A64_XAR
  | A64_DUP_ELEM
  | A64_DUP_GPR
  | A64_EXT
  | A64_INS_ELEM
  | A64_INS_GPR
  | A64_MOVI
  | A64_SMOV
  | A64_UMOV
  | A64_TBL
  | A64_TBX
  | A64_TRN1
  | A64_TRN2
  | A64_UZP1
  | A64_UZP2
  | A64_XTN
  | A64_ZIP1
  | A64_ZIP2
  | A64_CMEQ_REG
  | A64_CMEQ_ZERO
  | A64_CMGE_REG
  | A64_CMGE_ZERO
  | A64_CMGT_REG
  | A64_CMGT_ZERO
  | A64_CMHI_REG
  | A64_CMHS_REG
  | A64_CMLE_ZERO
  | A64_CMLT_ZERO
  | A64_CMTST
  | A64_ABS_VEC
  | A64_ABD
  | A64_ABDL
  | A64_ABA
  | A64_ABAL
  | A64_NEG_VEC
  | A64_MUL_ELEM
  | A64_MUL_VEC
  | A64_MULL_ELEM
  | A64_MULL_VEC
  | A64_ADD_VEC
  | A64_ADDHN
  | A64_ADDL
  | A64_ADDW
  | A64_HADD
  | A64_SUB_VEC
  | A64_SUBHN
  | A64_SUBL
  | A64_SUBW
  | A64_HSUB
  | A64_MAX_VEC
  | A64_MIN_VEC
  | A64_DOT_ELEM
  | A64_DOT_VEC
  | A64_URECPE
  | A64_URSQRTE
  | A64_MLA_ELEM
  | A64_MLA_VEC
  | A64_MLS_ELEM
  | A64_MLS_VEC
  | A64_MLAL_ELEM
  | A64_MLAL_VEC
  | A64_MLSL_ELEM
  | A64_MLSL_VEC
  | A64_ADDP
  | A64_ADDP_VEC
  | A64_ADDV
  | A64_ADALP
  | A64_ADDLP
  | A64_ADDLV
  | A64_MAXP
  | A64_MAXV
  | A64_MINP
  | A64_MINV
  | A64_QADD
  | A64_QABS
  | A64_SUQADD
  | A64_USQADD
  | A64_QSHL_IMM
  | A64_QSHL_REG
  | A64_QSHRN
  | A64_QSUB
  | A64_QXTN
  | A64_SQABS
  | A64_SQADD
  | A64_SQDMLAL_ELEM
  | A64_SQDMLAL_VEC
  | A64_SQDMLSL_ELEM
  | A64_SQDMLSL_VEC
  | A64_SQDMULH_ELEM
  | A64_SQDMULH_VEC
  | A64_SQDMULL_ELEM
  | A64_SQDMULL_VEC
  | A64_SQNEG
  | A64_SQRDMLAH_ELEM
  | A64_SQRDMLAH_VEC
  | A64_SQRDMLSH_ELEM
  | A64_SQRDMLSH_VEC
  | A64_SQSHLU
  | A64_SQSHRUN
  | A64_SQXTUN
  | A64_PMUL
  | A64_PMULL
  deriving DecidableEq, Repr

/-- Condition-code enumeration `Cond` of the source (lines 805-837), stored in
the upper four bits of the `Inst.flags` field.  The first three bits determine
the condition proper while the LSB inverts the condition if set. -/
inductive Cond : Type where
  | COND_EQ
  | COND_NE
  | COND_CS
  | COND_CC
  | COND_MI
  | COND_PL
  | COND_VS
  | COND_VC
  | COND_HI
  | COND_LS
  | COND_GE
  | COND_LT
  | COND_GT
  | COND_LE
  | COND_AL
  | COND_NV
  deriving DecidableEq

/-- Discriminant values of the `Cond` enum as written in the source. -/
def Cond.toNat : Cond → Nat
  | .COND_EQ => 0b0000
  | .COND_NE => 0b0001
  | .COND_CS => 0b0010
  | .COND_CC => 0b0011
  | .COND_MI => 0b0100
  | .COND_PL => 0b0101
  | .COND_VS => 0b0110
  | .COND_VC => 0b0111
  | .COND_HI => 0b1000
  | .COND_LS => 0b1001
  | .COND_GE => 0b1010
  | .COND_LT => 0b1011
  | .COND_GT => 0b1100
  | .COND_LE => 0b1101
  | .COND_AL => 0b1110
  | .COND_NV => 0b1111

/-- Logical inversion of a condition, by the architecturally paired meanings
documented on the source's `Cond` enum: EQ/NE, CS/CC, MI/PL, VS/VC, HI/LS,
GE/LT, GT/LE.  COND_AL and COND_NV (both "always true") have no inverse and
are mapped to themselves. -/
def logicalInvert : Cond → Cond
  | .COND_EQ => .COND_NE
  | .COND_NE => .COND_EQ
  | .COND_CS => .COND_CC
  | .COND_CC => .COND_CS
  | .COND_MI => .COND_PL
  | .COND_PL => .COND_MI
  | .COND_VS => .COND_VC
  | .COND_VC => .COND_VS
  | .COND_HI => .COND_LS
  | .COND_LS => .COND_HI
  | .COND_GE => .COND_LT
  | .COND_LT => .COND_GE
  | .COND_GT => .COND_LE
  | .COND_LE => .COND_GT
  | .COND_AL => .COND_AL
  | .COND_NV => .COND_NV

/-- Modelled from the spec: evaluation of a 4-bit condition code against the
NZCV flags (the per-value comments of the source's `Cond` enum give each
condition's meaning; the code evaluating conditions is missing from the
source tree).  The first three bits select the base predicate; the LSB
inverts it, except that 0b1111 means "always true", not "never". -/
def condHoldsN (k : Nat) (n z cf v : Bool) : Bool :=
  let base :=
    match k / 2 with
    | 0 => z
    | 1 => cf
    | 2 => n
    | 3 => v
    | 4 => cf && !z
    | 5 => n == v
    | 6 => (n == v) && !z
    | _ => true
  if k % 2 = 1 ∧ k ≠ 15 then !base else base

/-- Shift-kind enumeration `Shift` of the source (lines 839-844). -/
inductive Shift : Type where
  | SH_LSL
  | SH_LSR
  | SH_ASR
  | SH_ROR
  deriving DecidableEq

/-- Discriminant values of the `Shift` enum as written in the source. -/
def Shift.val : Shift → Nat
  | .SH_LSL => 0b00
  | .SH_LSR => 0b01
  | .SH_ASR => 0b10
  | .SH_ROR => 0b11

/-- Addressing-mode enumeration `AddrMode` of the source (lines 859-867),
stored in the top three bits of the flags field (where the condition is
stored for conditional instructions). -/
inductive AddrMode : Type where
  | AM_SIMPLE
  | AM_OFF_IMM
  | AM_OFF_REG
  | AM_OFF_EXT
  | AM_PRE
  | AM_POST
  | AM_LITERAL
  deriving DecidableEq

/-- Discriminant values of the `AddrMode` enum as written in the source. -/
def AddrMode.val : AddrMode → Nat
  | .AM_SIMPLE => 0
  | .AM_OFF_IMM => 1
  | .AM_OFF_REG => 2
  | .AM_OFF_EXT => 3
  | .AM_PRE => 4
  | .AM_POST => 5
  | .AM_LITERAL => 6

/-- Flag-mask constant `W32` of the source's `FlagMasks` enum (line 980). -/
def FlagMasks.W32 : Nat := 1 <<< 0

/-- Flag-mask constant `SET_FLAGS` of the source's `FlagMasks` enum. -/
def FlagMasks.SET_FLAGS : Nat := 1 <<< 1

/-- Flag-mask constant `SIMD_SCALAR` of the source's `FlagMasks` enum. -/
def FlagMasks.SIMD_SCALAR : Nat := 1 <<< 5

/-- Flag-mask constant `SIMD_SIGNED` of the source's `FlagMasks` enum. -/
def FlagMasks.SIMD_SIGNED : Nat := 1 <<< 6

/-- Flag-mask constant `SIMD_ROUND` of the source's `FlagMasks` enum. -/
def FlagMasks.SIMD_ROUND : Nat := 1 <<< 7

/-- Auxiliary payload `Movk` of the source (u32 fields as Nat). -/
structure Movk : Type where
  imm16 : Nat
  lsl : Nat

/-- Auxiliary payload `Bfm` of the source. -/
structure Bfm : Type where
  lsb : Nat
  width : Nat

/-- Auxiliary payload `Ccmp` of the source. -/
structure Ccmp : Type where
  nzcv : Nat
  imm5 : Nat

/-- Auxiliary payload `Sys` of the source (u16 fields as Nat). -/
structure Sys : Type where
  op1 : Nat
  op2 : Nat
  crn : Nat
  crm : Nat

/-- Auxiliary payload `MsrImm` of the source. -/
structure MsrImm : Type where
  psfld : Nat
  imm : Nat

/-- Auxiliary payload `Tbz` of the source (offset is an i32). -/
structure Tbz : Type where
  offset : Int
  bit : Nat

/-- Auxiliary payload `InstShift` of the source. -/
structure InstShift : Type where
  typ : Nat
  amount : Nat

/-- Auxiliary payload `Rmif` of the source. -/
structure Rmif : Type where
  mask : Nat
  ror : Nat

/-- Auxiliary payload `Extend` of the source. -/
structure Extend : Type where
  typ : Nat
  lsl : Nat

/-- Auxiliary payload `LdstOrder` of the source (u16 fields as Nat, plus a
status register of the source's `Reg` type). -/
structure LdstOrder : Type where
  load : Nat
  store : Nat
  rs : Reg

/-- Auxiliary payload `SimdLdst` of the source (offset is an i16). -/
structure SimdLdst : Type where
  nreg : Nat
  index : Nat
  offset : Int

/-- Auxiliary payload `Fcvt` of the source. -/
structure Fcvt : Type where
  mode : Nat
  fbits : Nat
  sgn : Nat

/-- Auxiliary payload `Frint` of the source. -/
structure Frint : Type where
  mode : Nat
  bits : Nat

/-- Auxiliary payload `InsElem` of the source. -/
structure InsElem : Type where
  dst : Nat
  src : Nat

/-- Auxiliary payload `FcmlaElem` of the source. -/
structure FcmlaElem : Type where
  idx : Nat
  rot : Nat

/-- Instruction record `Inst` of the source (lines 1072-1100): opcode, flags
word (u8), register operands of the source's two-variant `Reg` type, a u64
immediate, an f64 immediate, a signed 64-bit offset, an error string and the
auxiliary payloads. -/
structure Inst : Type where
  op : Op
  flags : Nat
  rd : Reg
  rn : Reg
  rm : Reg
  rt2 : Reg
  rs : Reg
  imm : Nat
  fimm : Float
  offset : Int
  ra : Reg
  error : String
  movk : Movk
  bfm : Bfm
  ccmp : Ccmp
  sys : Sys
  msr_imm : MsrImm
  tbz : Tbz
  shift : Shift
  rmif : Rmif
  extend : Extend
  ldst_order : LdstOrder
  simd_ldst : SimdLdst
  fcvt : Fcvt
  frint : Frint
  ins_elem : InsElem
  fcmla_elem : FcmlaElem

/-- Constructor `Inst::empty` of the source (lines 1102-1151), field for
field as written there. -/
def Inst.empty : Inst where
  op := Op.A64_UNKNOWN
  flags := 0
  rd := Reg.ZERO_REG
  rn := Reg.ZERO_REG
  rm := Reg.ZERO_REG
  rt2 := Reg.ZERO_REG
  rs := Reg.ZERO_REG
  imm := 0
  fimm := 0.0
  offset := 0
  ra := Reg.ZERO_REG
  error := ""
  movk := { imm16 := 0, lsl := 0 }
  bfm := { lsb := 0, width := 0 }
  ccmp := { nzcv := 0, imm5 := 0 }
  sys := { op1 := 0, op2 := 0, crn := 0, crm := 0 }
  msr_imm := { psfld := 0, imm := 0 }
  tbz := { offset := 0, bit := 0 }
  shift := Shift.SH_LSL
  rmif := { mask := 0, ror := 0 }
  extend := { typ := 0, lsl := 0 }
  ldst_order := { load := 0, store := 0, rs := Reg.ZERO_REG }
  simd_ldst := { nreg := 0, index := 0, offset := 0 }
  fcvt := { mode := 0, fbits := 0, sgn := 0 }
  frint := { mode := 0, bits := 0 }
  ins_elem := { dst := 0, src := 0 }
  fcmla_elem := { idx := 0, rot := 0 }

/-- Accessor modelled from the spec: read the 4-bit condition code stored in
the upper four bits of the flags word (the source's `Cond` enum comment,
lines 802-804; the accessor code itself is missing from the source tree). -/
def getCond (flags : Nat) : Nat := flags / 16 % 16

/-- Accessor modelled from the spec: store a 4-bit condition code into the
upper four bits of the flags word. -/
def setCond (flags c : Nat) : Nat := flags % 16 + c % 16 * 16

/-- Accessor modelled from the spec: read the 3-bit addressing mode stored in
the top three bits of the flags word (the source's `AddrMode` enum comment,
lines 846-848; the accessor code itself is missing from the source tree). -/
def getAddrMode (flags : Nat) : Nat := flags / 32 % 8

/-- Accessor modelled from the spec: store a 3-bit addressing mode into the
top three bits of the flags word. -/
def setAddrMode (flags m : Nat) : Nat := flags % 32 + m % 8 * 32

/-- Bit position `b` belongs to the sub-field read by accessor `get` when
setting that bit alone changes the accessor's result. -/
def influences (get : Nat → Nat) (b : Nat) : Bool := get (2 ^ b) != get 0

/-- Opcodes whose flags word carries a condition code, per the source's
grouping: the conditional branch, conditional compare, conditional select
(with aliases) and floating-point conditional opcodes. -/
def usesCond : Op → Bool
  | .A64_BCOND => true
  | .A64_CCMN_REG => true
  | .A64_CCMP_REG => true
  | .A64_CCMN_IMM => true
  | .A64_CCMP_IMM => true
  | .A64_CSEL => true
  | .A64_CSINC => true
  | .A64_CINC => true
  | .A64_CSET => true
  | .A64_CSINV => true
  | .A64_CINV => true
  | .A64_CSETM => true
  | .A64_CSNEG => true
  | .A64_CNEG => true
  | .A64_FCCMP => true
  | .A64_FCCMPE => true
  | .A64_FCSEL => true
  | _ => false

/-- Opcodes whose flags word carries an addressing mode, per the source's
grouping: every opcode of the Loads and Stores section (source lines
299-412). -/
def usesAddrMode : Op → Bool
  | .A64_LD1_MULT => true
  | .A64_ST1_MULT => true
  | .A64_LD2_MULT => true
  | .A64_ST2_MULT => true
  | .A64_LD3_MULT => true
  | .A64_ST3_MULT => true
  | .A64_LD4_MULT => true
  | .A64_ST4_MULT => true
  | .A64_LD1_SINGLE => true
  | .A64_ST1_SINGLE => true
  | .A64_LD2_SINGLE => true
  | .A64_ST2_SINGLE => true
  | .A64_LD3_SINGLE => true
  | .A64_ST3_SINGLE => true
  | .A64_LD4_SINGLE => true
  | .A64_ST4_SINGLE => true
  | .A64_LD1R => true
  | .A64_LD2R => true
  | .A64_LD3R => true
  | .A64_LD4R => true
  | .A64_LDXR => true
  | .A64_STXR => true
  | .A64_LDXP => true
  | .A64_STXP => true
  | .A64_LDAPR => true
  | .A64_LDNP => true
  | .A64_STNP => true
  | .A64_LDNP_FP => true
  | .A64_STNP_FP => true
  | .A64_LDP => true
  | .A64_STP => true
  | .A64_LDP_FP => true
  | .A64_STP_FP => true
  | .A64_LDR => true
  | .A64_STR => true
  | .A64_LDR_FP => true
  | .A64_STR_FP => true
  | .A64_PRFM => true
  | .A64_LDADD => true
  | .A64_LDCLR => true
  | .A64_LDEOR => true
  | .A64_LDSET => true
  | .A64_LDSMAX => true
  | .A64_LDSMIN => true
  | .A64_LDUMAX => true
  | .A64_LDUMIN => true
  | .A64_SWP => true
  | .A64_CAS => true
  | .A64_CASP => true
  | _ => false

/-- Modelled from the spec (§3, §9): the register reference produced by the
missing decode engine: ordinary indices pass through unchanged, register 31
is resolved into the two disjoint identities zero-register and
stack-pointer.  The source's `Reg` enum documents this split but holds only
the two special identities. -/
inductive RegV : Type where
  | ordinary (idx : Nat)
  | zero
  | sp
  deriving DecidableEq

/-- Modelled from the spec (§2, §4): register-31 remapping for a register
field that the architecture defines as zero-register at index 31. -/
def remapZR (idx : Nat) : RegV := if idx = 31 then .zero else .ordinary idx

/-- Modelled from the spec (§2, §4): register-31 remapping for a register
field that the architecture defines as stack-pointer at index 31. -/
def remapSP (idx : Nat) : RegV := if idx = 31 then .sp else .ordinary idx

/-- Modelled from the spec (§3): the instruction record populated by the
missing decode engine.  It mirrors the source's `Inst` (opcode, flags word,
register operands, immediate, signed byte offset, error string and the
test-and-branch payload), with register fields of the spec's representation
`RegV`, since ordinary indices are not representable in the source's
two-variant `Reg` enum. -/
structure DInst : Type where
  op : Op
  flags : Nat
  rd : RegV
  rn : RegV
  rm : RegV
  rt2 : RegV
  rs : RegV
  ra : RegV
  imm : Nat
  offset : Int
  error : String
  tbzBit : Nat
  tbzOffset : Int
  deriving DecidableEq

/-- Modelled from the spec: the all-default record, opcode A64_UNKNOWN, the
model's counterpart of the source's `Inst::empty`. -/
def dempty : DInst where
  op := .A64_UNKNOWN
  flags := 0
  rd := .zero
  rn := .zero
  rm := .zero
  rt2 := .zero
  rs := .zero
  ra := .zero
  imm := 0
  offset := 0
  error := ""
  tbzBit := 0
  tbzOffset := 0

/-- Modelled from the spec (§7): the "no defined instruction" outcome, an
ordinary record with the A64_UNKNOWN sentinel whose immediate field carries
the original raw word for diagnostics. -/
def unknownInst (w : Nat) : DInst := { dempty with imm := w }

/-- Modelled from the spec (§7): the "recognized but invalid" outcome, an
ordinary record with the A64_ERROR sentinel whose error field carries a
short human-readable reason. -/
def errorInst (w : Nat) (reason : String) : DInst :=
  { dempty with op := .A64_ERROR, imm := w, error := reason }

/-- Modelled from the spec (§7): architecturally reserved/UNDEFINED
encodings decode to the real A64_UDF instruction, not to a failure record. -/
def udfInst : DInst := { dempty with op := .A64_UDF }

/-- Operand width in bits selected by the sf bit. -/
def wordWidth (sf : Nat) : Nat := if sf = 1 then 64 else 32

/-- Value of the flags word carrying only the W32 attribute: set exactly
when the 32-bit facet is selected. -/
def w32flag (sf : Nat) : Nat := if sf = 1 then 0 else FlagMasks.W32

/-- Modelled from the spec (§4.2): decoder for the move-wide immediate
family.  MOVN and MOVZ are unified into the canonical A64_MOV_IMM with the
resulting immediate value stored; MOVK keeps its own opcode; unallocated
combinations give the no-defined-instruction record. -/
def decodeMoveWide (w : Nat) : DInst :=
  if bit w 31 = 0 ∧ 2 ≤ bits w 21 22 then unknownInst w
  else if bits w 29 30 = 1 then unknownInst w
  else if bits w 29 30 = 0 then
    { dempty with
        op := .A64_MOV_IMM, flags := w32flag (bit w 31),
        rd := remapZR (bits w 0 4),
        imm := bits w 5 20 * 2 ^ (16 * bits w 21 22) ^^^ mask (wordWidth (bit w 31)) }
  else if bits w 29 30 = 2 then
    { dempty with
        op := .A64_MOV_IMM, flags := w32flag (bit w 31),
        rd := remapZR (bits w 0 4),
        imm := bits w 5 20 * 2 ^ (16 * bits w 21 22) }
  else
    { dempty with
        op := .A64_MOVK, flags := w32flag (bit w 31),
        rd := remapZR (bits w 0 4),
        imm := bits w 5 20 * 2 ^ (16 * bits w 21 22) }

/-- Modelled from the spec (§4.2): decoder for the logical-immediate family.
An invalid N:immr:imms bitmask combination is the recognized-but-invalid
outcome; ORR with the zero register as operand is the bitmask MOV alias,
unified into A64_MOV_IMM; ANDS with the zero register as destination is the
TST alias. -/
def decodeLogicalImm (w : Nat) : DInst :=
  if bit w 31 = 0 ∧ bit w 22 = 1 then unknownInst w
  else
    match decodeBitMasks (bit w 22) (bits w 10 15) (bits w 16 21) (wordWidth (bit w 31)) with
    | none => errorInst w "invalid logical immediate"
    | some immval =>
      if bits w 29 30 = 1 ∧ bits w 5 9 = 31 then
        { dempty with
            op := .A64_MOV_IMM, flags := w32flag (bit w 31),
            rd := remapSP (bits w 0 4), imm := immval }
      else if bits w 29 30 = 0 then
        { dempty with
            op := .A64_AND_IMM, flags := w32flag (bit w 31),
            rd := remapSP (bits w 0 4), rn := remapZR (bits w 5 9), imm := immval }
      else if bits w 29 30 = 1 then
        { dempty with
            op := .A64_ORR_IMM, flags := w32flag (bit w 31),
            rd := remapSP (bits w 0 4), rn := remapZR (bits w 5 9), imm := immval }
      else if bits w 29 30 = 2 then
        { dempty with
            op := .A64_EOR_IMM, flags := w32flag (bit w 31),
            rd := remapSP (bits w 0 4), rn := remapZR (bits w 5 9), imm := immval }
      else if bits w 0 4 = 31 then
        { dempty with
            op := .A64_TST_IMM,
            flags := w32flag (bit w 31) + FlagMasks.SET_FLAGS,
            rd := .zero, rn := remapZR (bits w 5 9), imm := immval }
      else
        { dempty with
            op := .A64_AND_IMM,
            flags := w32flag (bit w 31) + FlagMasks.SET_FLAGS,
            rd := remapZR (bits w 0 4), rn := remapZR (bits w 5 9), imm := immval }

/-- Modelled from the spec (§4.2): the data-processing-immediate group
decoder.  Families not needed by the verified properties are conservatively
mapped to the no-defined-instruction record. -/
def decodeDPImm (w : Nat) : DInst :=
  if bits w 23 25 = 4 then decodeLogicalImm w
  else if bits w 23 25 = 5 then decodeMoveWide w
  else unknownInst w

/-- Modelled from the spec (§4.3): the branch group decoder for the
immediate branches: B/BL, conditional branch, compare-and-branch and
test-and-branch.  Every branch offset is materialized as a byte-granular
signed offset (raw word offset times four); remaining encodings of the group
are conservatively mapped to the no-defined-instruction record. -/
def decodeBranches (w : Nat) : DInst :=
  if bits w 26 30 = 5 then
    { dempty with
        op := if bit w 31 = 1 then .A64_BL else .A64_B,
        offset := 4 * sext (bits w 0 25) 26 }
  else if bits w 24 31 = 84 ∧ bit w 4 = 0 then
    { dempty with
        op := .A64_BCOND, flags := setCond 0 (bits w 0 3),
        offset := 4 * sext (bits w 5 23) 19 }
  else if bits w 25 30 = 26 then
    { dempty with
        op := if bit w 24 = 1 then .A64_CBNZ else .A64_CBZ,
        flags := w32flag (bit w 31), rd := remapZR (bits w 0 4),
        offset := 4 * sext (bits w 5 23) 19 }
  else if bits w 25 30 = 27 then
    { dempty with
        op := if bit w 24 = 1 then .A64_TBNZ else .A64_TBZ,
        rd := remapZR (bits w 0 4),
        tbzBit := bit w 31 * 32 + bits w 19 23,
        tbzOffset := 4 * sext (bits w 5 18) 14 }
  else unknownInst w

/-- Modelled from the spec (§4.4): shared record shape of the conditional
select family: the condition goes into the upper four flag bits and all
three register operands are zero-register remapped. -/
def condSelInst (w : Nat) (o : Op) (c : Nat) : DInst :=
  { dempty with
      op := o, flags := setCond (w32flag (bit w 31)) c,
      rd := remapZR (bits w 0 4), rn := remapZR (bits w 5 9),
      rm := remapZR (bits w 16 20) }

/-- Modelled from the spec (§4.4): the alias opcode chosen for a
CSINC/CSINV/CSNEG encoding (selected by the op and op2 field values) when
the alias predicate holds: CSET/CINC for CSINC, CSETM/CINV for CSINV (the
SET forms when the common source register is the zero register), and CNEG
for CSNEG. -/
def condSelAlias (op op2 rm : Nat) : Op :=
  if op = 0 then (if rm = 31 then .A64_CSET else .A64_CINC)
  else if op2 = 0 then (if rm = 31 then .A64_CSETM else .A64_CINV)
  else .A64_CNEG

/-- Modelled from the spec (§4.4): the non-aliased opcode of a conditional
select encoding with op and op2 field values other than 0:0. -/
def condSelPlain (op op2 : Nat) : Op :=
  if op = 0 then .A64_CSINC
  else if op2 = 0 then .A64_CSINV
  else .A64_CSNEG

/-- Modelled from the spec (§4.4) and the alias predicates documented on the
source's Op enum (lines 262-275): the conditional select decoder.
CSINC/CSINV/CSNEG alias to CSET/CINC, CSETM/CINV and CNEG exactly when both
source registers are equal and the condition is invertible (below 0b1110),
and the stored condition is then the raw condition XOR 1. -/
def decodeCondSel (w : Nat) : DInst :=
  if bit w 30 = 0 ∧ bits w 10 11 = 0 then
    condSelInst w .A64_CSEL (bits w 12 15)
  else if bits w 16 20 = bits w 5 9 ∧ bits w 12 15 < 14 then
    condSelInst w (condSelAlias (bit w 30) (bits w 10 11) (bits w 16 20)) (bits w 12 15 ^^^ 1)
  else
    condSelInst w (condSelPlain (bit w 30) (bits w 10 11)) (bits w 12 15)

/-- Modelled from the spec (§4.4): the data-processing-register group
decoder; families other than conditional select are conservatively mapped to
the no-defined-instruction record. -/
def decodeDPReg (w : Nat) : DInst :=
  if bits w 21 28 = 212 ∧ bit w 29 = 0 ∧ bits w 10 11 ≤ 1 then decodeCondSel w
  else unknownInst w

/-- Modelled from the spec (§4.1, §7): the top-level decoder.  It examines
the fixed class window w[28:25] and forwards to a per-group decoder: the
reserved class 0000 (architecturally permanently UNDEFINED) decodes to the
A64_UDF instruction; the unallocated and unsupported classes 0001-0011 give
the no-defined-instruction record; the remaining classes dispatch to
data-processing-immediate, branches, and data-processing-register; the
load/store and FP/SIMD groups are conservatively mapped to the
no-defined-instruction record.  The function is total: every 32-bit word
and address yields exactly one record. -/
def decode (w addr : Nat) : DInst :=
  if bits w 25 28 = 0 then udfInst
  else if bits w 25 28 ≤ 3 then unknownInst w
  else if bits w 25 28 = 8 ∨ bits w 25 28 = 9 then decodeDPImm w
  else if bits w 25 28 = 10 ∨ bits w 25 28 = 11 then decodeBranches w
  else if bits w 25 28 = 5 ∨ bits w 25 28 = 13 then decodeDPReg w
  else unknownInst w

/-- Decoding of a stream of words at a common address: each word is decoded
independently by the pure `decode`. -/
def decodeList (addr : Nat) (ws : List Nat) : List DInst :=
  ws.map (fun w => decode w addr)

/-- Encoder for the move-wide immediate class:
sf:opc:100101:hw:imm16:rd. -/
def encodeMovWide (sf opc hw imm16 rd : Nat) : Nat :=
  sf * 2 ^ 31 + opc * 2 ^ 29 + 37 * 2 ^ 23 + hw * 2 ^ 21 + imm16 * 2 ^ 5 + rd

/-- Encoder for the logical-immediate class:
sf:opc:100100:n:immr:imms:rn:rd. -/
def encodeLogicalImm (sf opc n immr imms rn rd : Nat) : Nat :=
  sf * 2 ^ 31 + opc * 2 ^ 29 + 36 * 2 ^ 23 + n * 2 ^ 22 + immr * 2 ^ 16 +
    imms * 2 ^ 10 + rn * 2 ^ 5 + rd

/-- Encoder for the conditional select class:
sf:op:s:11010100:rm:cond:op2:rn:rd. -/
def encodeCondSel (sf op s rm cond op2 rn rd : Nat) : Nat :=
  sf * 2 ^ 31 + op * 2 ^ 30 + s * 2 ^ 29 + 212 * 2 ^ 21 + rm * 2 ^ 16 +
    cond * 2 ^ 12 + op2 * 2 ^ 10 + rn * 2 ^ 5 + rd

/-- Encoder for the compare-and-branch class: sf:011010:op:imm19:rt. -/
def encodeCompBranch (sf op imm19 rt : Nat) : Nat :=
  sf * 2 ^ 31 + 26 * 2 ^ 25 + op * 2 ^ 24 + imm19 * 2 ^ 5 + rt

/-- Combined record invariant maintained by every decoder path for word `w`:
no register field is the ambiguous raw 31; the failure sentinels carry their
diagnostic payloads; every branch opcode stores a byte-granular offset equal
to four times its raw word-offset field. -/
def decOk (w : Nat) (i : DInst) : Prop :=
  (i.rd ≠ RegV.ordinary 31 ∧ i.rn ≠ RegV.ordinary 31 ∧ i.rm ≠ RegV.ordinary 31 ∧
   i.rt2 ≠ RegV.ordinary 31 ∧ i.rs ≠ RegV.ordinary 31 ∧ i.ra ≠ RegV.ordinary 31) ∧
  ((i.op = Op.A64_UNKNOWN → i.imm = w) ∧ (i.op = Op.A64_ERROR → i.error ≠ "")) ∧
  (((i.op = Op.A64_CBZ ∨ i.op = Op.A64_CBNZ) → i.offset = 4 * sext (bits w 5 23) 19) ∧
   ((i.op = Op.A64_B ∨ i.op = Op.A64_BL) → i.offset = 4 * sext (bits w 0 25) 26) ∧
   (i.op = Op.A64_BCOND → i.offset = 4 * sext (bits w 5 23) 19) ∧
   ((i.op = Op.A64_TBZ ∨ i.op = Op.A64_TBNZ) → i.tbzOffset = 4 * sext (bits w 5 18) 14))

theorem remapZR_ne_ord31 (n : Nat) : remapZR n ≠ RegV.ordinary 31 := by
  unfold remapZR; split
  · simp
  · rename_i h; simp [h]

theorem remapSP_ne_ord31 (n : Nat) : remapSP n ≠ RegV.ordinary 31 := by
  unfold remapSP; split
  · simp
  · rename_i h; simp [h]

theorem getCond_setCond (f c : Nat) (hc : c < 16) : getCond (setCond f c) = c := by
  unfold getCond setCond; omega

theorem usesCond_usesAddrMode_excl (op : Op) : (usesCond op && usesAddrMode op) = false := by
  cases op <;> rfl

theorem decOk_unknownInst (w : Nat) : decOk w (unknownInst w) := by
  simp [decOk, unknownInst, dempty]

theorem decOk_udfInst (w : Nat) : decOk w udfInst := by
  simp [decOk, udfInst, dempty]

theorem decOk_decodeMoveWide (w : Nat) : decOk w (decodeMoveWide w) := by
  unfold decodeMoveWide
  split_ifs <;>
    simp [decOk, unknownInst, dempty, remapZR_ne_ord31]

theorem decOk_decodeLogicalImm (w : Nat) : decOk w (decodeLogicalImm w) := by
  unfold decodeLogicalImm
  rcases hdm : decodeBitMasks (bit w 22) (bits w 10 15) (bits w 16 21) (wordWidth (bit w 31)) with _ | v <;>
    simp only [hdm] <;>
    split_ifs <;>
    simp [decOk, unknownInst, errorInst, dempty, remapZR_ne_ord31, remapSP_ne_ord31]

theorem decOk_decodeDPImm (w : Nat) : decOk w (decodeDPImm w) := by
  unfold decodeDPImm
  split_ifs with h1 h2
  · exact decOk_decodeLogicalImm w
  · exact decOk_decodeMoveWide w
  · exact decOk_unknownInst w

theorem decOk_decodeBranches (w : Nat) : decOk w (decodeBranches w) := by
  unfold decodeBranches
  split_ifs <;>
    simp [decOk, unknownInst, dempty, remapZR_ne_ord31]

theorem condSelAlias_cases (a b c : Nat) :
    condSelAlias a b c = Op.A64_CSET ∨ condSelAlias a b c = Op.A64_CINC ∨
    condSelAlias a b c = Op.A64_CSETM ∨ condSelAlias a b c = Op.A64_CINV ∨
    condSelAlias a b c = Op.A64_CNEG := by
  unfold condSelAlias; split_ifs <;> simp

theorem condSelPlain_cases (a b : Nat) :
    condSelPlain a b = Op.A64_CSINC ∨ condSelPlain a b = Op.A64_CSINV ∨
    condSelPlain a b = Op.A64_CSNEG := by
  unfold condSelPlain; split_ifs <;> simp

theorem decOk_decodeCondSel (w : Nat) : decOk w (decodeCondSel w) := by
  unfold decodeCondSel condSelInst
  rcases condSelAlias_cases (bit w 30) (bits w 10 11) (bits w 16 20) with h|h|h|h|h <;>
    rcases condSelPlain_cases (bit w 30) (bits w 10 11) with h2|h2|h2 <;>
    split_ifs <;>
    simp [decOk, dempty, remapZR_ne_ord31, h, h2]

theorem decOk_decodeDPReg (w : Nat) : decOk w (decodeDPReg w) := by
  unfold decodeDPReg
  split_ifs
  · exact decOk_decodeCondSel w
  · exact decOk_unknownInst w

theorem decOk_decode (w addr : Nat) : decOk w (decode w addr) := by
  unfold decode
  split_ifs <;>
    first
      | exact decOk_udfInst w
      | exact decOk_unknownInst w
      | exact decOk_decodeDPImm w
      | exact decOk_decodeBranches w
      | exact decOk_decodeDPReg w

/-- C9: `Inst::empty` returns a record whose opcode is A64_UNKNOWN, whose
flags word is 0, whose register operand fields and accumulator all hold the
zero-register identity, whose immediate, floating-point immediate and offset
are zero, whose error string is empty, and whose auxiliary-payload
sub-records have all numeric fields zero. -/
theorem c9_inst_empty :
    Inst.empty.op = Op.A64_UNKNOWN ∧ Inst.empty.flags = 0 ∧
    Inst.empty.rd = Reg.ZERO_REG ∧ Inst.empty.rn = Reg.ZERO_REG ∧
    Inst.empty.rm = Reg.ZERO_REG ∧ Inst.empty.rt2 = Reg.ZERO_REG ∧
    Inst.empty.rs = Reg.ZERO_REG ∧ Inst.empty.ra = Reg.ZERO_REG ∧
    Inst.empty.imm = 0 ∧ Inst.empty.fimm = 0.0 ∧ Inst.empty.offset = 0 ∧
    Inst.empty.error = "" ∧
    Inst.empty.movk.imm16 = 0 ∧ Inst.empty.movk.lsl = 0 ∧
    Inst.empty.bfm.lsb = 0 ∧ Inst.empty.bfm.width = 0 ∧
    Inst.empty.ccmp.nzcv = 0 ∧ Inst.empty.ccmp.imm5 = 0 ∧
    Inst.empty.sys.op1 = 0 ∧ Inst.empty.sys.op2 = 0 ∧
    Inst.empty.sys.crn = 0 ∧ Inst.empty.sys.crm = 0 ∧
    Inst.empty.msr_imm.psfld = 0 ∧ Inst.empty.msr_imm.imm = 0 ∧
    Inst.empty.tbz.offset = 0 ∧ Inst.empty.tbz.bit = 0 ∧
    Inst.empty.rmif.mask = 0 ∧ Inst.empty.rmif.ror = 0 ∧
    Inst.empty.extend.typ = 0 ∧ Inst.empty.extend.lsl = 0 ∧
    Inst.empty.ldst_order.load = 0 ∧ Inst.empty.ldst_order.store = 0 ∧
    Inst.empty.ldst_order.rs = Reg.ZERO_REG ∧
    Inst.empty.simd_ldst.nreg = 0 ∧ Inst.empty.simd_ldst.index = 0 ∧
    Inst.empty.simd_ldst.offset = 0 ∧
    Inst.empty.fcvt.mode = 0 ∧ Inst.empty.fcvt.fbits = 0 ∧
    Inst.empty.fcvt.sgn = 0 ∧
    Inst.empty.frint.mode = 0 ∧ Inst.empty.frint.bits = 0 ∧
    Inst.empty.ins_elem.dst = 0 ∧ Inst.empty.ins_elem.src = 0 ∧
    Inst.empty.fcmla_elem.idx = 0 ∧ Inst.empty.fcmla_elem.rot = 0 := by
  repeat constructor

/-- C3: the source's register-operand representation cannot hold the
ordinary register indices: every value of the source's two-variant `Reg`
enum is one of the two special identities, so no injective embedding of the
31 ordinary general-purpose indices 0-30 into `Reg` exists.  The spec's
representation `RegV` does hold every ordinary index as a value distinct
from the zero-register and stack-pointer identities. -/
theorem c3_reg_ordinary_indices :
    (∀ r : Reg, r = Reg.ZERO_REG ∨ r = Reg.STACK_POINTER) ∧
    (¬ ∃ f : Fin 31 → Reg, Function.Injective f) ∧
    Function.Injective RegV.ordinary ∧
    (∀ i : Nat, RegV.ordinary i ≠ RegV.zero ∧ RegV.ordinary i ≠ RegV.sp) := by
  have hall : ∀ r : Reg, r = Reg.ZERO_REG ∨ r = Reg.STACK_POINTER := by
    intro r; cases r
    · exact Or.inl rfl
    · exact Or.inr rfl
  refine ⟨hall, ?_, ?_, ?_⟩
  · rintro ⟨f, hf⟩
    rcases hall (f 0) with h0 | h0 <;> rcases hall (f 1) with h1 | h1 <;>
      rcases hall (f 2) with h2 | h2
    all_goals first
      | exact absurd (hf (h0.trans h1.symm)) (by decide)
      | exact absurd (hf (h0.trans h2.symm)) (by decide)
      | exact absurd (hf (h1.trans h2.symm)) (by decide)
  · intro i j hij
    simpa using hij
  · intro i; exact ⟨by simp, by simp⟩

/-- C10: for every condition other than COND_AL and COND_NV, flipping the
least-significant bit of the source's discriminant yields the discriminant
of the logically inverted condition (the EQ/NE, CS/CC, MI/PL, VS/VC, HI/LS,
GE/LT, GT/LE pairing), so condition inversion is XOR with 1; the inverted
condition evaluates to the negation of the original on every NZCV flag
assignment, and COND_NV evaluates to true always (not "never"). -/
theorem c10_cond_inversion :
    ∀ (c : Cond) (n z cf v : Bool), c ≠ Cond.COND_AL → c ≠ Cond.COND_NV →
      Cond.toNat (logicalInvert c) = Cond.toNat c ^^^ 1 ∧
      condHoldsN (Cond.toNat (logicalInvert c)) n z cf v =
        !condHoldsN (Cond.toNat c) n z cf v ∧
      condHoldsN (Cond.toNat Cond.COND_NV) n z cf v = true := by
  intro c n z cf v h1 h2
  cases c <;> first
    | exact absurd rfl h1
    | exact absurd rfl h2
    | (revert n z cf v; decide)

/-- C10 witness at COND_GT and one concrete flag assignment. -/
theorem c10_witness :
    Cond.toNat (logicalInvert Cond.COND_GT) = Cond.toNat Cond.COND_GT ^^^ 1 ∧
    condHoldsN (Cond.toNat (logicalInvert Cond.COND_GT)) true false true false =
      !condHoldsN (Cond.toNat Cond.COND_GT) true false true false ∧
    condHoldsN (Cond.toNat Cond.COND_NV) true false true false = true :=
  c10_cond_inversion Cond.COND_GT true false true false (by decide) (by decide)

/-- C7 counterexample: the 4-bit condition-code sub-field and the 3-bit
addressing-mode sub-field do not occupy literally the same bit positions:
bit 4 of the flags word (flags value 16) changes the stored condition code
but leaves the stored addressing mode unchanged. -/
theorem c7_counterexample :
    getCond 16 ≠ getCond 0 ∧ getAddrMode 16 = getAddrMode 0 ∧
    influences getCond 4 = true ∧ influences getAddrMode 4 = false := by
  decide

/-- C7 amended: the 3-bit addressing-mode sub-field occupies the top three
bits of the flags word, which are three of the four bit positions of the
condition-code sub-field (both sub-fields are top-aligned and share
storage), and which of the two interpretations applies is determined
entirely by the opcode's category: no opcode carries both a condition code
and an addressing mode. -/
theorem c7_flags_field_overlap :
    ∀ (b : Nat) (op : Op) (f c : Nat), b < 8 → f < 256 → c < 16 →
      (influences getAddrMode b = true → influences getCond b = true) ∧
      influences getCond 7 = true ∧ influences getAddrMode 7 = true ∧
      (usesCond op && usesAddrMode op) = false ∧
      getAddrMode (setCond f c) = c / 2 := by
  intro b op f c hb hf hc
  refine ⟨?_, by decide, by decide, usesCond_usesAddrMode_excl op, ?_⟩
  · interval_cases b <;> decide
  · unfold getAddrMode setCond; omega

/-- C7 witness at bit position 5, opcode A64_BCOND and a concrete flags
byte and condition. -/
theorem c7_witness :
    (influences getAddrMode 5 = true → influences getCond 5 = true) ∧
    influences getCond 7 = true ∧ influences getAddrMode 7 = true ∧
    (usesCond Op.A64_BCOND && usesAddrMode Op.A64_BCOND) = false ∧
    getAddrMode (setCond 3 6) = 6 / 2 :=
  c7_flags_field_overlap 5 Op.A64_BCOND 3 6 (by decide) (by decide) (by decide)

/-- C1: the decoder is total: for every 32-bit word and address it returns
exactly one record, whose opcode is the undefined-instruction opcode, one of
the two sentinels, or a valid instruction opcode; and the architecturally
reserved class (w[28:25] = 0000, permanently UNDEFINED) decodes to the
distinguished A64_UDF opcode, never to an error sentinel. -/
theorem c1_decode_total :
    ∀ w addr : Nat, w < 2 ^ 32 →
      (∃! i : DInst, decode w addr = i) ∧
      ((decode w addr).op = Op.A64_UDF ∨ (decode w addr).op = Op.A64_UNKNOWN ∨
        (decode w addr).op = Op.A64_ERROR ∨
        ((decode w addr).op ≠ Op.A64_UDF ∧ (decode w addr).op ≠ Op.A64_UNKNOWN ∧
         (decode w addr).op ≠ Op.A64_ERROR)) ∧
      (bits w 25 28 = 0 →
        (decode w addr).op = Op.A64_UDF ∧ (decode w addr).op ≠ Op.A64_UNKNOWN ∧
        (decode w addr).op ≠ Op.A64_ERROR) := by
  intro w addr hw
  refine ⟨⟨decode w addr, rfl, fun y hy => hy.symm⟩, by tauto, ?_⟩
  intro h0
  simp [decode, h0, udfInst, dempty]

/-- C1 witness at the all-zero word (reserved class). -/
theorem c1_witness :
    (∃! i : DInst, decode 0 0 = i) ∧
    ((decode 0 0).op = Op.A64_UDF ∨ (decode 0 0).op = Op.A64_UNKNOWN ∨
      (decode 0 0).op = Op.A64_ERROR ∨
      ((decode 0 0).op ≠ Op.A64_UDF ∧ (decode 0 0).op ≠ Op.A64_UNKNOWN ∧
       (decode 0 0).op ≠ Op.A64_ERROR)) ∧
    (bits 0 25 28 = 0 →
      (decode 0 0).op = Op.A64_UDF ∧ (decode 0 0).op ≠ Op.A64_UNKNOWN ∧
      (decode 0 0).op ≠ Op.A64_ERROR) :=
  c1_decode_total 0 0 (by decide)

/-- C2: no decoded register operand is ever the ambiguous raw index 31: the
decoder resolves index 31 into the two disjoint identities (zero-register
under zero-register interpretation, stack-pointer under stack-pointer
interpretation), which are distinct from each other, as are the source
`Reg` enum's two discriminants. -/
theorem c2_reg31_disjoint :
    ∀ w addr n : Nat, w < 2 ^ 32 → n < 32 →
      ((decode w addr).rd ≠ RegV.ordinary 31 ∧ (decode w addr).rn ≠ RegV.ordinary 31 ∧
       (decode w addr).rm ≠ RegV.ordinary 31 ∧ (decode w addr).rt2 ≠ RegV.ordinary 31 ∧
       (decode w addr).rs ≠ RegV.ordinary 31 ∧ (decode w addr).ra ≠ RegV.ordinary 31) ∧
      remapZR n ≠ RegV.sp ∧ remapSP n ≠ RegV.zero ∧
      remapZR n ≠ RegV.ordinary 31 ∧ remapSP n ≠ RegV.ordinary 31 ∧
      remapZR 31 = RegV.zero ∧ remapSP 31 = RegV.sp ∧
      RegV.zero ≠ RegV.sp ∧ Reg.ZERO_REG ≠ Reg.STACK_POINTER ∧
      Reg.val Reg.ZERO_REG = 31 ∧ Reg.val Reg.STACK_POINTER = 100 := by
  intro w addr n hw hn
  have h := decOk_decode w addr
  unfold decOk at h
  refine ⟨h.1, ?_, ?_, remapZR_ne_ord31 n, remapSP_ne_ord31 n,
    by simp [remapZR], by simp [remapSP], by decide, by decide, rfl, rfl⟩
  · unfold remapZR; split <;> simp
  · unfold remapSP; split <;> simp

/-- C2 witness at a concrete conditional-select word and index 5. -/
theorem c2_witness :
    (((decode (encodeCondSel 1 0 0 2 0 1 2 5) 0).rd ≠ RegV.ordinary 31 ∧
      (decode (encodeCondSel 1 0 0 2 0 1 2 5) 0).rn ≠ RegV.ordinary 31 ∧
      (decode (encodeCondSel 1 0 0 2 0 1 2 5) 0).rm ≠ RegV.ordinary 31 ∧
      (decode (encodeCondSel 1 0 0 2 0 1 2 5) 0).rt2 ≠ RegV.ordinary 31 ∧
      (decode (encodeCondSel 1 0 0 2 0 1 2 5) 0).rs ≠ RegV.ordinary 31 ∧
      (decode (encodeCondSel 1 0 0 2 0 1 2 5) 0).ra ≠ RegV.ordinary 31) ∧
     remapZR 5 ≠ RegV.sp ∧ remapSP 5 ≠ RegV.zero ∧
     remapZR 5 ≠ RegV.ordinary 31 ∧ remapSP 5 ≠ RegV.ordinary 31 ∧
     remapZR 31 = RegV.zero ∧ remapSP 31 = RegV.sp ∧
     RegV.zero ≠ RegV.sp ∧ Reg.ZERO_REG ≠ Reg.STACK_POINTER ∧
     Reg.val Reg.ZERO_REG = 31 ∧ Reg.val Reg.STACK_POINTER = 100) :=
  c2_reg31_disjoint (encodeCondSel 1 0 0 2 0 1 2 5) 0 5 (by decide) (by decide)

/-- C5: every decoded branch stores a byte-granular signed offset: four
times the raw signed word-offset field of the encoding, for unconditional,
conditional, compare-and-branch and test-and-branch forms. -/
theorem c5_branch_offsets :
    ∀ w addr : Nat, w < 2 ^ 32 →
      (((decode w addr).op = Op.A64_CBZ ∨ (decode w addr).op = Op.A64_CBNZ) →
        (decode w addr).offset = 4 * sext (bits w 5 23) 19) ∧
      (((decode w addr).op = Op.A64_B ∨ (decode w addr).op = Op.A64_BL) →
        (decode w addr).offset = 4 * sext (bits w 0 25) 26) ∧
      ((decode w addr).op = Op.A64_BCOND →
        (decode w addr).offset = 4 * sext (bits w 5 23) 19) ∧
      (((decode w addr).op = Op.A64_TBZ ∨ (decode w addr).op = Op.A64_TBNZ) →
        (decode w addr).tbzOffset = 4 * sext (bits w 5 18) 14) := by
  intro w addr hw
  have h := decOk_decode w addr
  unfold decOk at h
  exact h.2.2

/-- C5 witness: a compare-and-branch encoding with raw word offset +5
decodes to byte offset +20. -/
theorem c5_witness : (decode (encodeCompBranch 1 0 5 3) 0).offset = 20 := by
  have h := (c5_branch_offsets (encodeCompBranch 1 0 5 3) 0 (by decide)).1
    (Or.inl (by decide))
  have h2 : (4 : Int) * sext (bits (encodeCompBranch 1 0 5 3) 5 23) 19 = 20 := by decide
  exact h.trans h2

/-- C8: decode failures are ordinary return values: the
no-defined-instruction record carries the original raw word in its
immediate field, the recognized-but-invalid record carries a nonempty
human-readable reason string, and the result of decoding a word in a
stream depends only on that word, never on its neighbours. -/
theorem c8_failure_payloads :
    ∀ (w addr : Nat) (pre post : List Nat), w < 2 ^ 32 →
      ((decode w addr).op = Op.A64_UNKNOWN → (decode w addr).imm = w) ∧
      ((decode w addr).op = Op.A64_ERROR → (decode w addr).error ≠ "") ∧
      (decodeList addr (pre ++ w :: post))[pre.length]? = some (decode w addr) := by
  intro w addr pre post hw
  have h := decOk_decode w addr
  unfold decOk at h
  refine ⟨h.2.1.1, h.2.1.2, ?_⟩
  simp only [decodeList, List.map_append, List.map_cons]
  rw [List.getElem?_append_right (by simp)]
  simp

/-- C8 witness at a recognized-but-invalid word (reserved logical-immediate
bitmask), with an empty surrounding stream. -/
theorem c8_witness :
    ((decode (encodeLogicalImm 1 0 0 0 63 0 0) 0).op = Op.A64_UNKNOWN →
      (decode (encodeLogicalImm 1 0 0 0 63 0 0) 0).imm = encodeLogicalImm 1 0 0 0 63 0 0) ∧
    ((decode (encodeLogicalImm 1 0 0 0 63 0 0) 0).op = Op.A64_ERROR →
      (decode (encodeLogicalImm 1 0 0 0 63 0 0) 0).error ≠ "") ∧
    (decodeList 0 ([] ++ encodeLogicalImm 1 0 0 0 63 0 0 :: []))[List.length ([] : List Nat)]? =
      some (decode (encodeLogicalImm 1 0 0 0 63 0 0) 0) :=
  c8_failure_payloads (encodeLogicalImm 1 0 0 0 63 0 0) 0 [] [] (by decide)

/-- C4: decoding a conditional-select encoding of the CSINC/CSINV/CSNEG
families with equal source registers and an invertible condition yields the
corresponding alias opcode (CSET/CINC for CSINC, CSETM/CINV for CSINV, CNEG
for CSNEG) with the stored condition equal to the raw condition XOR 1; with
differing source registers it yields the non-aliased opcode with the
condition stored unmodified. -/
theorem c4_condsel_alias :
    ∀ sf op op2 rm cond rn rd addr : Nat,
      sf < 2 → op < 2 → op2 < 2 → (op = 1 ∨ op2 = 1) →
      rm < 32 → cond < 16 → rn < 32 → rd < 32 →
      ((rm = rn ∧ cond < 14 →
         (decode (encodeCondSel sf op 0 rm cond op2 rn rd) addr).op = condSelAlias op op2 rm ∧
         getCond (decode (encodeCondSel sf op 0 rm cond op2 rn rd) addr).flags = cond ^^^ 1) ∧
       (rm ≠ rn →
         (decode (encodeCondSel sf op 0 rm cond op2 rn rd) addr).op = condSelPlain op op2 ∧
         getCond (decode (encodeCondSel sf op 0 rm cond op2 rn rd) addr).flags = cond)) := by
  intro sf op op2 rm cond rn rd addr hsf hop hop2 hcase hrm hcond hrn hrd
  have hx : cond ^^^ 1 < 16 :=
    Nat.xor_lt_two_pow (show cond < 2 ^ 4 by omega) (show 1 < 2 ^ 4 by norm_num)
  set W := encodeCondSel sf op 0 rm cond op2 rn rd with hW
  have e25 : bits W 25 28 = 13 := by rw [hW]; unfold bits encodeCondSel; omega
  have e21 : bits W 21 28 = 212 := by rw [hW]; unfold bits encodeCondSel; omega
  have e29 : bit W 29 = 0 := by rw [hW]; unfold bit encodeCondSel; omega
  have e30 : bit W 30 = op := by rw [hW]; unfold bit encodeCondSel; omega
  have e1011 : bits W 10 11 = op2 := by rw [hW]; unfold bits encodeCondSel; omega
  have e1620 : bits W 16 20 = rm := by rw [hW]; unfold bits encodeCondSel; omega
  have e1215 : bits W 12 15 = cond := by rw [hW]; unfold bits encodeCondSel; omega
  have e59 : bits W 5 9 = rn := by rw [hW]; unfold bits encodeCondSel; omega
  have e04 : bits W 0 4 = rd := by rw [hW]; unfold bits encodeCondSel; omega
  have e31 : bit W 31 = sf := by rw [hW]; unfold bit encodeCondSel; omega
  have hop2le : op2 ≤ 1 := by omega
  have hstep : decode W addr = decodeCondSel W := by
    simp only [decode, decodeDPReg, e25, e21, e29, e1011, hop2le]
    norm_num
  rw [hstep]
  simp only [decodeCondSel, condSelInst, e30, e1011, e1620, e1215, e59, e04, e31]
  have hne00 : ¬(op = 0 ∧ op2 = 0) := by omega
  rw [if_neg hne00]
  constructor
  · rintro ⟨hh1, hh2⟩
    rw [if_pos ⟨hh1, hh2⟩]
    exact ⟨rfl, getCond_setCond _ _ hx⟩
  · intro hne
    rw [if_neg (fun hc => hne hc.1)]
    exact ⟨rfl, getCond_setCond _ _ hcond⟩

/-- C4 witness: CSINC with both sources X2 and condition EQ decodes to CINC
with the condition inverted to NE; the differing-sources implication holds
vacuously at this input. -/
theorem c4_witness :
    ((2 = 2 ∧ 0 < 14 →
       (decode (encodeCondSel 1 0 0 2 0 1 2 5) 0).op = condSelAlias 0 1 2 ∧
       getCond (decode (encodeCondSel 1 0 0 2 0 1 2 5) 0).flags = 0 ^^^ 1) ∧
     ((2 : Nat) ≠ 2 →
       (decode (encodeCondSel 1 0 0 2 0 1 2 5) 0).op = condSelPlain 0 1 ∧
       getCond (decode (encodeCondSel 1 0 0 2 0 1 2 5) 0).flags = 0)) :=
  c4_condsel_alias 1 0 1 2 0 2 5 0 (by decide) (by decide) (by decide) (by decide)
    (by decide) (by decide) (by decide) (by decide)

theorem decode_movz (sf hw i rd addr : Nat) (hsf : sf < 2) (hhw : hw < 4)
    (hi : i < 2 ^ 16) (hrd : rd < 32) (hv : sf = 1 ∨ hw < 2) :
    decode (encodeMovWide sf 2 hw i rd) addr =
      { dempty with
          op := .A64_MOV_IMM, flags := w32flag sf,
          rd := remapZR rd, imm := i * 2 ^ (16 * hw) } := by
  set W := encodeMovWide sf 2 hw i rd with hW
  have e25 : bits W 25 28 = 9 := by rw [hW]; unfold bits encodeMovWide; omega
  have e2325 : bits W 23 25 = 5 := by rw [hW]; unfold bits encodeMovWide; omega
  have e31 : bit W 31 = sf := by rw [hW]; unfold bit encodeMovWide; omega
  have e2930 : bits W 29 30 = 2 := by rw [hW]; unfold bits encodeMovWide; omega
  have e2122 : bits W 21 22 = hw := by rw [hW]; unfold bits encodeMovWide; omega
  have e520 : bits W 5 20 = i := by rw [hW]; unfold bits encodeMovWide; omega
  have e04 : bits W 0 4 = rd := by rw [hW]; unfold bits encodeMovWide; omega
  simp only [decode, decodeDPImm, decodeMoveWide, e25, e2325, e31, e2930,
    e2122, e520, e04]
  norm_num
  intro h1 h2
  exact absurd h1 (by omega)

theorem decode_movn (sf hw i rd addr : Nat) (hsf : sf < 2) (hhw : hw < 4)
    (hi : i < 2 ^ 16) (hrd : rd < 32) (hv : sf = 1 ∨ hw < 2) :
    decode (encodeMovWide sf 0 hw i rd) addr =
      { dempty with
          op := .A64_MOV_IMM, flags := w32flag sf,
          rd := remapZR rd, imm := i * 2 ^ (16 * hw) ^^^ mask (wordWidth sf) } := by
  set W := encodeMovWide sf 0 hw i rd with hW
  have e25 : bits W 25 28 = 9 := by rw [hW]; unfold bits encodeMovWide; omega
  have e2325 : bits W 23 25 = 5 := by rw [hW]; unfold bits encodeMovWide; omega
  have e31 : bit W 31 = sf := by rw [hW]; unfold bit encodeMovWide; omega
  have e2930 : bits W 29 30 = 0 := by rw [hW]; unfold bits encodeMovWide; omega
  have e2122 : bits W 21 22 = hw := by rw [hW]; unfold bits encodeMovWide; omega
  have e520 : bits W 5 20 = i := by rw [hW]; unfold bits encodeMovWide; omega
  have e04 : bits W 0 4 = rd := by rw [hW]; unfold bits encodeMovWide; omega
  simp only [decode, decodeDPImm, decodeMoveWide, e25, e2325, e31, e2930,
    e2122, e520, e04]
  norm_num
  intro h1 h2
  exact absurd h1 (by omega)

theorem decode_movbm (sf n immr imms rd addr v : Nat) (hsf : sf < 2) (hn : n < 2)
    (himmr : immr < 64) (himms : imms < 64) (hrd : rd < 32)
    (hnv : sf = 1 ∨ n = 0)
    (hv : decodeBitMasks n imms immr (wordWidth sf) = some v) :
    decode (encodeLogicalImm sf 1 n immr imms 31 rd) addr =
      { dempty with
          op := .A64_MOV_IMM, flags := w32flag sf,
          rd := remapSP rd, imm := v } := by
  set W := encodeLogicalImm sf 1 n immr imms 31 rd with hW
  have e25 : bits W 25 28 = 9 := by rw [hW]; unfold bits encodeLogicalImm; omega
  have e2325 : bits W 23 25 = 4 := by rw [hW]; unfold bits encodeLogicalImm; omega
  have e31 : bit W 31 = sf := by rw [hW]; unfold bit encodeLogicalImm; omega
  have e22 : bit W 22 = n := by rw [hW]; unfold bit encodeLogicalImm; omega
  have e2930 : bits W 29 30 = 1 := by rw [hW]; unfold bits encodeLogicalImm; omega
  have e1621 : bits W 16 21 = immr := by rw [hW]; unfold bits encodeLogicalImm; omega
  have e1015 : bits W 10 15 = imms := by rw [hW]; unfold bits encodeLogicalImm; omega
  have e59 : bits W 5 9 = 31 := by rw [hW]; unfold bits encodeLogicalImm; omega
  have e04 : bits W 0 4 = rd := by rw [hW]; unfold bits encodeLogicalImm; omega
  simp only [decode, decodeDPImm, decodeLogicalImm, e25, e2325, e31, e22,
    e2930, e1621, e1015, e59, e04, hv]
  norm_num
  intro h1 h2
  exact absurd h1 (by omega)

/-- C6: a MOVZ encoding, a MOVN encoding and a bitmask MOV-immediate
encoding that produce the same final register value all decode to the one
canonical A64_MOV_IMM opcode with that identical resulting value stored in
the immediate field. -/
theorem c6_mov_imm_canonical :
    ∀ sf hw1 i1 rd1 hw2 i2 rd2 n immr imms rd3 addr v : Nat,
      sf < 2 → hw1 < 4 → hw2 < 4 → i1 < 2 ^ 16 → i2 < 2 ^ 16 →
      rd1 < 32 → rd2 < 32 → rd3 < 32 → n < 2 → immr < 64 → imms < 64 →
      (sf = 1 ∨ hw1 < 2) → (sf = 1 ∨ hw2 < 2) → (sf = 1 ∨ n = 0) →
      i1 * 2 ^ (16 * hw1) = v →
      i2 * 2 ^ (16 * hw2) ^^^ mask (wordWidth sf) = v →
      decodeBitMasks n imms immr (wordWidth sf) = some v →
      ((decode (encodeMovWide sf 2 hw1 i1 rd1) addr).op = Op.A64_MOV_IMM ∧
       (decode (encodeMovWide sf 0 hw2 i2 rd2) addr).op = Op.A64_MOV_IMM ∧
       (decode (encodeLogicalImm sf 1 n immr imms 31 rd3) addr).op = Op.A64_MOV_IMM ∧
       (decode (encodeMovWide sf 2 hw1 i1 rd1) addr).imm = v ∧
       (decode (encodeMovWide sf 0 hw2 i2 rd2) addr).imm = v ∧
       (decode (encodeLogicalImm sf 1 n immr imms 31 rd3) addr).imm = v) := by
  intro sf hw1 i1 rd1 hw2 i2 rd2 n immr imms rd3 addr v hsf hhw1 hhw2 hi1 hi2
    hrd1 hrd2 hrd3 hn himmr himms hv1c hv2c hnc hval1 hval2 hval3
  rw [decode_movz sf hw1 i1 rd1 addr hsf hhw1 hi1 hrd1 hv1c,
    decode_movn sf hw2 i2 rd2 addr hsf hhw2 hi2 hrd2 hv2c,
    decode_movbm sf n immr imms rd3 addr v hsf hn himmr himms hrd3 hnc hval3]
  exact ⟨rfl, rfl, rfl, hval1, hval2, rfl⟩

/-- C6 witness: the 32-bit value 0xFFFF0000 written as MOVZ (imm16 0xFFFF,
shift 16), as MOVN (imm16 0xFFFF, shift 0) and as the bitmask immediate
N:immr:imms = 0:16:15; all three decode to A64_MOV_IMM with immediate
0xFFFF0000. -/
theorem c6_witness :
    ((decode (encodeMovWide 0 2 1 65535 0) 0).op = Op.A64_MOV_IMM ∧
     (decode (encodeMovWide 0 0 0 65535 0) 0).op = Op.A64_MOV_IMM ∧
     (decode (encodeLogicalImm 0 1 0 16 15 31 7) 0).op = Op.A64_MOV_IMM ∧
     (decode (encodeMovWide 0 2 1 65535 0) 0).imm = 4294901760 ∧
     (decode (encodeMovWide 0 0 0 65535 0) 0).imm = 4294901760 ∧
     (decode (encodeLogicalImm 0 1 0 16 15 31 7) 0).imm = 4294901760) :=
  c6_mov_imm_canonical 0 1 65535 0 0 65535 0 0 16 15 7 0 4294901760
    (by decide) (by decide) (by decide) (by decide) (by decide) (by decide)
    (by decide) (by decide) (by decide) (by decide) (by decide) (by decide)
    (by decide) (by decide) (by decide) (by decide) (by decide)

end A64
